import Mathlib

/-!
Shallow embedding of the plan-generation and layout engine of the arquiGo
backend (`backend/services/plan_generator.py`), together with proofs of the
specified properties.  Python floats are modelled as exact rationals (`ℚ`);
`round(x, n)` is modelled by round-half-to-even on the scaled rational, and
`math.sqrt` by a deterministic 6-decimal-truncated rational square root
(`ratSqrt`).  The external video catalog (`youtube_service`) is a database
read outside the core; it is modelled as an abstract lookup function
`videoOf` passed to the layout engine, fixed for one invocation.
-/

/-- Lowercase a character: ASCII via `Char.toLower`, plus the Spanish
accented letters appearing in the catalogs (models Python `str.lower`
on the input domain). -/
def charLower (c : Char) : Char :=
  if c = 'Á' then 'á' else if c = 'É' then 'é' else if c = 'Í' then 'í'
  else if c = 'Ó' then 'ó' else if c = 'Ú' then 'ú' else if c = 'Ñ' then 'ñ'
  else if c = 'Ü' then 'ü' else c.toLower

/-- Uppercase a character: ASCII via `Char.toUpper`, plus the Spanish
accented letters (models Python `str.upper` on the input domain). -/
def charUpper (c : Char) : Char :=
  if c = 'á' then 'Á' else if c = 'é' then 'É' else if c = 'í' then 'Í'
  else if c = 'ó' then 'Ó' else if c = 'ú' then 'Ú' else if c = 'ñ' then 'Ñ'
  else if c = 'ü' then 'Ü' else c.toUpper

/-- Python `str.lower` on the scripts used by the application. -/
def pyLower (s : String) : String := String.mk (s.data.map charLower)

/-- Python `str.upper` on the scripts used by the application. -/
def pyUpper (s : String) : String := String.mk (s.data.map charUpper)

/-- Alphabetic test covering ASCII letters and the Spanish accented letters
(models Python `str.isalpha` per character on the input domain). -/
def pyIsAlphaChar (c : Char) : Bool :=
  c.isAlpha || ['á', 'é', 'í', 'ó', 'ú', 'ñ', 'ü',
    'Á', 'É', 'Í', 'Ó', 'Ú', 'Ñ', 'Ü'].contains c

/-- Python `str.title`: uppercase each letter that follows a non-letter,
lowercase the other letters. -/
def pyTitle (s : String) : String :=
  String.mk (s.data.foldl
    (fun (acc : List Char × Bool) c =>
      let out := if pyIsAlphaChar c then
          (if acc.2 then charLower c else charUpper c) else c
      (acc.1 ++ [out], pyIsAlphaChar c))
    ([], false)).1

/-- Round a rational to the nearest integer, ties to even
(Python `round` semantics on the exact value). -/
def bankers (x : ℚ) : ℤ :=
  let n : ℤ := ⌊x⌋
  let f : ℚ := x - n
  if f < 1 / 2 then n
  else if 1 / 2 < f then n + 1
  else if n % 2 = 0 then n else n + 1

/-- Python `round(x, p)` modelled on exact rationals: round half to even at
`p` decimal digits. -/
def pyRound (p : ℕ) (x : ℚ) : ℚ := (bankers (x * 10 ^ p) : ℚ) / 10 ^ p

/-- Model of `math.sqrt` on exact rationals: the square root truncated to six
decimal digits.  The verified properties below do not depend on the precision
of this approximation. -/
def ratSqrt (x : ℚ) : ℚ :=
  (Nat.sqrt (⌊x * 1000000000000⌋).toNat : ℚ) / 1000000

/-- Digits of a one-decimal fixed-point value `n/10` (helper for `fmt1`). -/
def fmt1nat (n : ℕ) : String := toString (n / 10) ++ "." ++ toString (n % 10)

/-- Python `f"{x:.1f}"` formatting modelled on exact rationals (round half to
even at one decimal digit, then print with exactly one decimal).  Also used to
model `str` of a float already rounded to one decimal. -/
def fmt1 (x : ℚ) : String :=
  let k := bankers (x * 10)
  if k < 0 then "-" ++ fmt1nat (-k).toNat else fmt1nat k.toNat

/-- A typed room record (`Room` dataclass in `plan_generator.py`). -/
structure Room where
  name : String
  area : ℚ
  type : String
  guide : Option String := none
deriving DecidableEq, Inhabited

/-- `ROOM_PRESETS`: name ↦ (area, type). -/
def roomPresets : List (String × ℚ × String) :=
  [("cocina", (12, "wet")),
   ("baño", (6, "wet")),
   ("baño completo", (7, "wet")),
   ("recámara", (14, "private")),
   ("recámara principal", (18, "private")),
   ("patio", (10, "outdoor")),
   ("sala", (16, "social")),
   ("comedor", (12, "social")),
   ("estudio", (9, "social")),
   ("área de lavado", (8, "service")),
   ("cochera", (18, "service")),
   ("terraza", (14, "outdoor"))]

/-- `ROOM_GUIDES`: name ↦ manual-step key. -/
def roomGuides : List (String × String) :=
  [("cocina", "acabados_finales"),
   ("baño", "instalaciones_seguras"),
   ("baño completo", "instalaciones_seguras"),
   ("recámara", "levantamiento_muros"),
   ("recámara principal", "levantamiento_muros"),
   ("patio", "ventilacion_iluminacion"),
   ("sala", "levantamiento_muros"),
   ("comedor", "levantamiento_muros"),
   ("estudio", "levantamiento_muros"),
   ("área de lavado", "preparacion_terreno"),
   ("cochera", "preparacion_terreno"),
   ("terraza", "ventilacion_iluminacion")]

/-- Dictionary lookup `d.get(key)` on an association list. -/
def dictGet {β : Type} (d : List (String × β)) (key : String) : Option β :=
  (d.find? (fun p => p.1 == key)).map (fun p => p.2)

/-- `_build_room_program`: turn requested room names into typed `Room`
records; empty input synthesizes the single default room. -/
def buildRoomProgram (selectedSpaces : List String) : List Room :=
  let rooms := selectedSpaces.map (fun space =>
    let normalized := pyLower space
    match dictGet roomPresets normalized with
    | some p =>
        { name := pyTitle space, area := p.1, type := p.2,
          guide := dictGet roomGuides normalized }
    | none =>
        { name := pyTitle space, area := 10, type := "general",
          guide := dictGet roomGuides normalized })
  if rooms.isEmpty then
    [{ name := "Sala-Comedor", area := 28, type := "social",
       guide := some "levantamiento_muros" }]
  else rooms

/-- A static catalog entry of `PLAN_TEMPLATES`. -/
structure PlanTemplate where
  name : String
  climates : List String
  materials : List String
  maxLevels : ℤ
  baseCost : ℚ
  description : String
  svgTemplate : String
deriving DecidableEq, Inhabited

/-- `PLAN_TEMPLATES` (fixed catalog, in source order). -/
def planTemplates : List PlanTemplate :=
  [{ name := "Proyecto A - Compacto",
     climates := ["templado", "seco"],
     materials := ["block", "concreto"],
     maxLevels := 2, baseCost := 7800,
     description := "Planta rectangular con patio central para ventilación.",
     svgTemplate := "M20 20 H 300 V 200 H 20 Z" },
   { name := "Proyecto B - Bioclimático",
     climates := ["cálido", "húmedo"],
     materials := ["madera", "adobe"],
     maxLevels := 2, baseCost := 6900,
     description := "Volúmenes escalonados con cubierta inclinada para captar lluvia.",
     svgTemplate := "M30 40 H 200 L 280 120 L 200 200 H 30 Z" },
   { name := "Proyecto C - Modular",
     climates := ["templado", "cálido", "seco"],
     materials := ["concreto", "block"],
     maxLevels := 3, baseCost := 8400,
     description := "Módulos flexibles que permiten ampliaciones futuras.",
     svgTemplate := "M20 20 H 160 V 120 H 20 Z M190 20 H 330 V 180 H 190 Z" }]

/-- `MATERIAL_COSTS`. -/
def materialCosts : List (String × ℚ) :=
  [("concreto", 2800), ("block", 2400), ("madera", 2100), ("adobe", 1800)]

/-- `CLIMATE_FACTORS`. -/
def climateFactors : List (String × ℚ) :=
  [("templado", 1), ("cálido", 1.08), ("húmedo", 1.12), ("seco", 0.95)]

/-- `PREFERENCE_WEIGHTS`. -/
def preferenceWeights : List (String × ℚ) :=
  [("ventilación natural", 0.05), ("iluminación natural", 0.05),
   ("energía solar", 0.03), ("captación de agua", 0.02)]

/-- `VIABILITY_MESSAGES` (descending threshold table). -/
def viabilityMessages : List (ℚ × String) :=
  [(0.85, "Excelente viabilidad, el proyecto puede iniciar de inmediato."),
   (0.7, "Viabilidad alta, revisa los detalles de acabados y tiempos."),
   (0.55, "Viabilidad media, considera ajustar materiales o presupuesto."),
   (0, "Viabilidad limitada, se recomiendan ajustes antes de construir.")]

/-- A conforming project brief (`form_data` after upstream validation):
the fields of the form consumed by the core. -/
structure Brief where
  anchoTerreno : ℚ
  largoTerreno : ℚ
  presupuesto : ℚ
  clima : String
  material : String
  personas : ℤ
  plantas : ℤ
  espacios : List String
  preferencias : List String
  orientacion : Option String := none
  ciudad : Option String := none
  localidad : Option String := none
deriving DecidableEq, Inhabited

/-- `_score_template`: compatibility of one catalog template with a brief. -/
def scoreTemplate (t : PlanTemplate) (b : Brief) (totalArea : ℚ) : ℚ :=
  let s1 : ℚ := if t.climates.contains b.clima then 0.4 else 0.2
  let s2 : ℚ := s1 + (if t.materials.contains b.material then 0.4 else 0.15)
  let budgetFactor : ℚ := min (b.presupuesto / (t.baseCost * totalArea)) 1.2
  let s3 : ℚ := s2 + 0.2 * min budgetFactor 1
  let s4 : ℚ := s3 - 0.05 * |(b.plantas - t.maxLevels : ℚ)|
  max 0 (min s4 1)

/-- The compatibility-score formula exactly as the specification writes it
(for comparison with `scoreTemplate`, which is translated from the code). -/
def scoreTemplateSpec (t : PlanTemplate) (b : Brief) (totalArea : ℚ) : ℚ :=
  max 0 (min
    ((if t.climates.contains b.clima then (0.4 : ℚ) else 0.2)
      + (if t.materials.contains b.material then (0.4 : ℚ) else 0.15)
      + 0.2 * min (b.presupuesto / (t.baseCost * totalArea)) 1
      - 0.05 * |(b.plantas - t.maxLevels : ℚ)|) 1)

/-- A door or window descriptor attached to a placed room. -/
structure Opening where
  side : String
  offset : ℚ
  width : ℚ
deriving DecidableEq, Inhabited

/-- A placed room as emitted by `_layout_rooms` (one entry of the `layout`
list: position, dimensions, style, label, openings, guide, orientation). -/
structure LayoutRoom where
  name : String
  area : ℚ
  posX : ℚ
  posY : ℚ
  width : ℚ
  length : ℚ
  fill : String
  stroke : String
  textColor : String
  fontSize : ℤ
  dimsLabel : String
  guideStep : Option String
  guideVideo : Option String
  doors : List Opening
  windows : List Opening
  orientation : String
  roomType : String
deriving DecidableEq, Inhabited

/-- The envelope metrics returned by `_layout_rooms`. -/
structure LayoutMetrics where
  width : ℚ
  length : ℚ
  corridor : ℚ
  envelopeWidth : ℚ
deriving DecidableEq, Inhabited

/-- The mutable loop state of `_layout_rooms` (cursors, row height, running
bounds, rooms placed so far). -/
structure LayoutState where
  xCursor : ℚ
  yCursor : ℚ
  rowHeight : ℚ
  totalWidth : ℚ
  totalLength : ℚ
  layout : List LayoutRoom
deriving Inhabited

/-- `_room_color`: fill color keyed by room type. -/
def roomColor (roomType : String) : String :=
  (dictGet
    [("wet", "#bae6fd"), ("private", "#c7d2fe"), ("social", "#bbf7d0"),
     ("service", "#fde68a"), ("outdoor", "#fbcfe8"), ("general", "#e0f2fe")]
    roomType).getD "#e2e8f0"

/-- The type-priority table of `_layout_rooms` (`order` dict). -/
def typeOrder : List (String × ℤ) :=
  [("social", 0), ("service", 1), ("wet", 2), ("private", 3),
   ("outdoor", 4), ("general", 5)]

/-- `order.get(room.type, 99)`: sort key of a room. -/
def roomOrderKey (r : Room) : ℤ := (dictGet typeOrder r.type).getD 99

/-- Stable ascending insertion by key: an earlier element precedes later
elements with the same key, like Python `sorted`. -/
def insertAscBy {α β : Type} [LinearOrder β] (key : α → β) (a : α) :
    List α → List α
  | [] => [a]
  | b :: l => if key a ≤ key b then a :: b :: l else b :: insertAscBy key a l

/-- Stable ascending sort by key (models Python `sorted(..., key=...)`,
which is stable). -/
def sortAscBy {α β : Type} [LinearOrder β] (key : α → β) : List α → List α
  | [] => []
  | a :: l => insertAscBy key a (sortAscBy key l)

/-- Stable descending insertion by key: an earlier element precedes later
elements with the same key, like Python `list.sort(reverse=True)`. -/
def insertDescBy {α β : Type} [LinearOrder β] (key : α → β) (a : α) :
    List α → List α
  | [] => [a]
  | b :: l => if key b ≤ key a then a :: b :: l else b :: insertDescBy key a l

/-- Stable descending sort by key (models Python
`list.sort(key=..., reverse=True)`, which is stable). -/
def sortDescBy {α β : Type} [LinearOrder β] (key : α → β) : List α → List α
  | [] => []
  | a :: l => insertDescBy key a (sortDescBy key l)

/-- `target_area = max(room.area, 6.0)`. -/
def roomTargetArea (room : Room) : ℚ := max room.area 6

/-- `aspect_ratio = 1.35 if room.type in {"private", "wet"} else 1.15`. -/
def roomAspect (room : Room) : ℚ :=
  if ["private", "wet"].contains room.type then 1.35 else 1.15

/-- `width_guess = max(round(math.sqrt(target_area / aspect_ratio), 2), 2.6)`
(the initial width guess of a room, before wrapping and clipping). -/
def roomWidthGuess (room : Room) : ℚ :=
  max (pyRound 2 (ratSqrt (roomTargetArea room / roomAspect room))) 2.6

/-- One iteration of the placement loop of `_layout_rooms`: size the room,
wrap to a new row if needed, clip to the remaining row width, record the
placed room and advance the cursors.  The source computes an initial
`length_guess` before the wrap test and unconditionally recomputes it after
clipping; the initial value is never read, so only the recomputation is
modelled. -/
def placeStep (videoOf : String → Option String) (orientation : String)
    (maxWidth corridor : ℚ) (st : LayoutState) (room : Room) : LayoutState :=
  let targetArea : ℚ := roomTargetArea room
  let widthGuess0 : ℚ := roomWidthGuess room
  let wrap : Prop := maxWidth < st.xCursor + widthGuess0 ∧ 0 < st.xCursor
  let xc : ℚ := if wrap then 0 else st.xCursor
  let yc : ℚ := if wrap then st.yCursor + st.rowHeight + corridor else st.yCursor
  let rh : ℚ := if wrap then 0 else st.rowHeight
  let widthGuess : ℚ :=
    if 2.4 < maxWidth - xc then min widthGuess0 (maxWidth - xc) else widthGuess0
  let lengthGuess : ℚ := max (pyRound 2 (targetArea / max widthGuess 2.4)) 2.6
  let positionX : ℚ := pyRound 2 (corridor / 2 + xc)
  let positionY : ℚ := pyRound 2 (corridor / 2 + yc)
  let xcNext : ℚ := xc + widthGuess + corridor
  let rhNext : ℚ := max rh lengthGuess
  let baseFontSize : ℤ := max 12 (min 22 ⌊min widthGuess lengthGuess * (5.2 : ℚ)⌋)
  let newRoom : LayoutRoom :=
    { name := room.name
      area := pyRound 1 targetArea
      posX := positionX
      posY := positionY
      width := pyRound 2 widthGuess
      length := pyRound 2 lengthGuess
      fill := roomColor room.type
      stroke := "#0f172a"
      textColor := "#0f172a"
      fontSize := baseFontSize
      dimsLabel := fmt1 widthGuess ++ "m × " ++ fmt1 lengthGuess ++ "m"
      guideStep := room.guide
      guideVideo := room.guide.bind videoOf
      doors := [{ side := "sur", offset := pyRound 2 (widthGuess / 2),
                  width := pyRound 2 (max (widthGuess * 0.35) 0.9) }]
      windows := [{ side := "norte", offset := pyRound 2 (widthGuess / 2),
                    width := pyRound 2 (max (widthGuess * 0.45) 1) }]
      orientation := orientation
      roomType := room.type }
  { xCursor := xcNext
    yCursor := yc
    rowHeight := rhNext
    totalWidth := max st.totalWidth xcNext
    totalLength := max st.totalLength (yc + lengthGuess + corridor)
    layout := st.layout ++ [newRoom] }

/-- `_layout_rooms`: place every room inside the envelope with the shelf
(row-packing) heuristic; returns the placed rooms and the envelope metrics. -/
def layoutRooms (videoOf : String → Option String) (rooms : List Room)
    (width length : ℚ) (orientation : Option String) :
    List LayoutRoom × LayoutMetrics :=
  let orient := pyLower (orientation.getD "norte")
  let totalArea : ℚ := (rooms.map Room.area).sum
  let envelopeWidth : ℚ := max (max (width - 1.2) (ratSqrt totalArea * 0.9)) 6
  let envelopeLength : ℚ :=
    max (max (length - 1.2) (totalArea / max envelopeWidth 1)) 6
  let corridor : ℚ := 0.8
  let maxWidth : ℚ := envelopeWidth - corridor
  let sortedRooms := sortAscBy roomOrderKey rooms
  let final := sortedRooms.foldl
    (placeStep videoOf orient maxWidth corridor)
    { xCursor := 0, yCursor := 0, rowHeight := 0,
      totalWidth := 0, totalLength := 0, layout := [] }
  (final.layout,
   { width := pyRound 2 (max final.totalWidth envelopeWidth)
     length := pyRound 2 (max (max final.totalLength
       (final.yCursor + final.rowHeight + corridor)) envelopeLength)
     corridor := corridor
     envelopeWidth := pyRound 2 envelopeWidth })

/-- A 3D volume hint (`_generate_volumes` entry). -/
structure Volume where
  label : String
  width : ℚ
  length : ℚ
  height : ℚ
deriving DecidableEq, Inhabited

/-- `_generate_volumes`. -/
def generateVolumes (layout : List LayoutRoom) (levels : ℤ) : List Volume :=
  layout.map (fun r =>
    { label := r.name, width := r.width, length := r.length,
      height := if levels = 1 then 2.8 else 5.6 })

/-- A room-legend entry (`_build_room_legend` entry; its `type` field holds
the manual-step key of the room guide). -/
structure LegendEntry where
  name : String
  type : Option String
  area : String
  dimensions : String
  color : String
deriving DecidableEq, Inhabited

/-- `_build_room_legend`. -/
def buildRoomLegend (rooms : List LayoutRoom) : List LegendEntry :=
  rooms.map (fun r =>
    { name := r.name, type := r.guideStep, area := fmt1 r.area ++ " m²",
      dimensions := r.dimsLabel, color := r.fill })

/-- A material line item (`_estimate_materials` entry). -/
structure MaterialItem where
  name : String
  quantity : ℚ
  unit : String
  unitCost : ℚ
deriving DecidableEq, Inhabited

/-- The materials block (`_estimate_materials` result). -/
structure MaterialEstimate where
  items : List MaterialItem
  estimatedTotal : ℚ
deriving DecidableEq, Inhabited

/-- Structural cost of `_estimate_materials`:
`total_area * unit_cost[material] * climate_factor[climate]` with the
source defaults for unknown keys. -/
def structureCost (b : Brief) (totalArea : ℚ) : ℚ :=
  totalArea * ((dictGet materialCosts b.material).getD 2500)
    * ((dictGet climateFactors b.clima).getD 1)

/-- Finishes cost (`structure_cost * 0.25`). -/
def finishesCost (b : Brief) (totalArea : ℚ) : ℚ :=
  structureCost b totalArea * 0.25

/-- Installations cost (`structure_cost * 0.18`). -/
def installationsCost (b : Brief) (totalArea : ℚ) : ℚ :=
  structureCost b totalArea * 0.18

/-- Contingency (`structure_cost * 0.07`). -/
def contingencyCost (b : Brief) (totalArea : ℚ) : ℚ :=
  structureCost b totalArea * 0.07

/-- `_estimate_materials`. -/
def estimateMaterials (b : Brief) (totalArea : ℚ) : MaterialEstimate :=
  let baseCost : ℚ := (dictGet materialCosts b.material).getD 2500
  let totalCost : ℚ := structureCost b totalArea + finishesCost b totalArea
    + installationsCost b totalArea + contingencyCost b totalArea
  { items :=
      [{ name := pyTitle b.material ++ " estructural",
         quantity := pyRound 2 (totalArea * 1.2), unit := "m²",
         unitCost := pyRound 2 baseCost },
       { name := "Acero de refuerzo",
         quantity := pyRound 2 (totalArea * 0.15), unit := "ton",
         unitCost := 16500 },
       { name := "Instalaciones hidráulicas y eléctricas",
         quantity := pyRound 2 (totalArea * 0.8), unit := "m lineales",
         unitCost := 480 },
       { name := "Acabados y pintura",
         quantity := pyRound 2 (totalArea * 1.4), unit := "m²",
         unitCost := 220 }],
    estimatedTotal := pyRound 2 totalCost }

/-- The viability block (`_calculate_viability` result). -/
structure Viability where
  score : ℚ
  message : String
deriving DecidableEq, Inhabited

/-- `_calculate_viability`. -/
def calculateViability (b : Brief) (rooms : List Room)
    (materials : MaterialEstimate) : Viability :=
  let spaceFactor : ℚ := min ((rooms.length : ℚ) / ((b.personas : ℚ) + 1)) 1.2
  let budgetFactor : ℚ := min (b.presupuesto / max materials.estimatedTotal 1) 1.2
  let preferenceFactor : ℚ := b.preferencias.foldl
    (fun acc preference =>
      acc + ((dictGet preferenceWeights (pyLower preference)).getD 0.01)) 1
  let score : ℚ :=
    min (spaceFactor * 0.4 + budgetFactor * 0.4 + preferenceFactor * 0.2) 1
  let status : String :=
    ((viabilityMessages.find? (fun tm => decide (tm.1 ≤ score))).map
      (fun tm => tm.2)).getD (viabilityMessages.getLastD (0, "")).2
  { score := pyRound 2 score, message := status }

/-- The room list built for a brief (`generate_project_package` line
`rooms = _build_room_program(...)`). -/
def pipelineRooms (b : Brief) : List Room := buildRoomProgram b.espacios

/-- The total programmed area of a brief
(`total_area = sum(room.area for room in rooms)`). -/
def pipelineTotalArea (b : Brief) : ℚ :=
  ((pipelineRooms b).map Room.area).sum

/-- The materials block of a brief as wired in `generate_project_package`. -/
def pipelineMaterials (b : Brief) : MaterialEstimate :=
  estimateMaterials b (pipelineTotalArea b)

/-- The viability block of a brief as wired in `generate_project_package`. -/
def pipelineViability (b : Brief) : Viability :=
  calculateViability b (pipelineRooms b) (pipelineMaterials b)

/-- One merge step of the tail loop of `_wrap_label`: pop the last line and
append it to the new last line, stripped. -/
def mergeLastTwo (l : List String) : List String :=
  match l.reverse with
  | tail :: prev :: rest => (((prev ++ " " ++ tail).trim) :: rest).reverse
  | _ => l

/-- Fuelled form of the `while len(lines) > 3` loop of `_wrap_label`; each
step shortens the list by one, so `fuel = l.length` never runs out before
the condition fails. -/
def mergeTo3Go : ℕ → List String → List String
  | 0, l => l
  | fuel + 1, l => if 3 < l.length then mergeTo3Go fuel (mergeLastTwo l) else l

/-- The `while len(lines) > 3` loop of `_wrap_label`. -/
def mergeTo3 (l : List String) : List String := mergeTo3Go l.length l

/-- `_wrap_label`: greedy word wrap to at most `maxChars` characters per
line, then merge down to at most 3 lines. -/
def wrapLabel (text : String) (maxChars : ℤ) : List String :=
  if maxChars ≤ 0 then [text]
  else
    let words := (text.split Char.isWhitespace).filter (fun w => w ≠ "")
    match words with
    | [] => [text]
    | w :: ws =>
      let packed := ws.foldl
        (fun (acc : List String × String) word =>
          let candidate := acc.2 ++ " " ++ word
          if (candidate.length : ℤ) ≤ maxChars then (acc.1, candidate)
          else (acc.1 ++ [acc.2], word))
        ([], w)
      let lines := packed.1 ++ [packed.2]
      let wrapped := ((mergeTo3 lines).map String.trim).filter (fun s => s ≠ "")
      if wrapped.isEmpty then [text] else wrapped

/-- The font-shrinking `while True` loop of `_create_svg`: shrink the label
font until the label block and dimension line fit vertically inside the room
or the font reaches 12.  Returns (font size, line height, label start y,
dims y).  The font strictly decreases per step, so `fuel = fontSize.toNat`
never runs out before the exit condition holds. -/
def shrinkFit (y length : ℚ) (nLines : ℕ) :
    ℕ → ℤ → ℚ → ℤ × ℚ × ℚ × ℚ
  | fuel, fontSize, lineHeight =>
    let blockHeight : ℚ := lineHeight * nLines
    let labelStartY : ℚ := y + length / 2 - (blockHeight - lineHeight) / 2
    let dimsY : ℚ := labelStartY + blockHeight + 6
    if dimsY ≤ y + length - 10 ∨ fontSize ≤ 12 then
      (fontSize, lineHeight, labelStartY, dimsY)
    else
      match fuel with
      | 0 => (fontSize, lineHeight, labelStartY, dimsY)
      | fuel + 1 =>
        shrinkFit y length nLines fuel (fontSize - 1)
          (max ((fontSize : ℚ) - 1 + 2) 13)

/-- `_build_scale_label` (constant label, arguments unused in the source). -/
def buildScaleLabel (widthM lengthM : ℚ) : String :=
  let _ := (widthM, lengthM)
  "Escala gráfica 1:100 (1 cm = 1 m)"

set_option maxHeartbeats 2000000 in
/-- `_create_svg`: deterministic vector scene description of one layout.
Returns the markup together with the metadata pair
(scale label, uppercased orientation). -/
def createSvg (path : String) (rooms : List LayoutRoom)
    (metrics : LayoutMetrics) (b : Brief) : String × String × String :=
  let orientation := pyLower (b.orientacion.getD "norte")
  let northRotation : ℤ :=
    (dictGet [("norte", 0), ("este", 90), ("sur", 180), ("oeste", 270)]
      orientation).getD 0
  let widthM : ℚ := max metrics.width 6
  let lengthM : ℚ := max metrics.length 6
  let pxPerMeter : ℚ := 37.8
  let widthPx : ℚ := widthM * pxPerMeter
  let lengthPx : ℚ := lengthM * pxPerMeter
  let marginX : ℚ := 96
  let marginY : ℚ := 120
  let viewWidth : ℚ := widthPx + marginX * 2 + 260
  let viewHeight : ℚ := lengthPx + marginY * 2 + 280
  let gridCols := (List.range (⌊widthM⌋.toNat + 1)).map (fun offset =>
    let x : ℚ := marginX + (offset : ℚ) * pxPerMeter
    "<line x1=\x27" ++ fmt1 x ++ "\x27 y1=\x27" ++ fmt1 marginY
      ++ "\x27 x2=\x27" ++ fmt1 x ++ "\x27 y2=\x27" ++ fmt1 (marginY + lengthPx)
      ++ "\x27 stroke=\x27rgba(148,163,184,0.16)\x27 stroke-width=\x270.7\x27 />")
  let gridRows := (List.range (⌊lengthM⌋.toNat + 1)).map (fun offset =>
    let y : ℚ := marginY + (offset : ℚ) * pxPerMeter
    "<line x1=\x27" ++ fmt1 marginX ++ "\x27 y1=\x27" ++ fmt1 y
      ++ "\x27 x2=\x27" ++ fmt1 (marginX + widthPx) ++ "\x27 y2=\x27" ++ fmt1 y
      ++ "\x27 stroke=\x27rgba(148,163,184,0.16)\x27 stroke-width=\x270.7\x27 />")
  let patternDefs :=
    "<pattern id=\x27hatch-outdoor\x27 patternUnits=\x27userSpaceOnUse\x27 width=\x2718\x27 height=\x2718\x27 patternTransform=\x27rotate(45)\x27>"
      ++ "<rect width=\x2718\x27 height=\x2718\x27 fill=\x27rgba(56,189,248,0.16)\x27/>"
      ++ "<path d=\x27M0 9 H18\x27 stroke=\x27rgba(14,116,144,0.35)\x27 stroke-width=\x272\x27/>"
      ++ "</pattern>"
      ++ "<pattern id=\x27hatch-service\x27 patternUnits=\x27userSpaceOnUse\x27 width=\x2716\x27 height=\x2716\x27 patternTransform=\x27rotate(45)\x27>"
      ++ "<rect width=\x2716\x27 height=\x2716\x27 fill=\x27rgba(251,191,36,0.14)\x27/>"
      ++ "<path d=\x27M0 8 H16\x27 stroke=\x27rgba(217,119,6,0.35)\x27 stroke-width=\x272\x27/>"
      ++ "</pattern>"
  let roomLayers := rooms.map (fun room =>
    let x : ℚ := marginX + room.posX * pxPerMeter
    let y : ℚ := marginY + room.posY * pxPerMeter
    let width : ℚ := room.width * pxPerMeter
    let rLength : ℚ := room.length * pxPerMeter
    let fillOpacity : String := if room.roomType ≠ "outdoor" then "0.9" else "0.78"
    let strokeWidth : String := if room.roomType ≠ "outdoor" then "3.4" else "2.6"
    let hatchId : Option String :=
      if room.roomType = "outdoor" then some "hatch-outdoor"
      else if room.roomType = "service" then some "hatch-service" else none
    let doorLayers := room.doors.foldl (fun acc door =>
      let doorWidthPx : ℚ := door.width * pxPerMeter
      acc ++
        (if door.side = "sur" then
          "<path d=\x27M" ++ fmt1 (x + max (door.offset * pxPerMeter - doorWidthPx / 2) 12)
            ++ "," ++ fmt1 (y + rLength) ++ " h" ++ fmt1 doorWidthPx
            ++ "\x27 stroke=\x27#f97316\x27 stroke-width=\x274\x27 stroke-linecap=\x27round\x27/>"
        else if door.side = "norte" then
          "<path d=\x27M" ++ fmt1 (x + max (door.offset * pxPerMeter - doorWidthPx / 2) 12)
            ++ "," ++ fmt1 y ++ " h" ++ fmt1 doorWidthPx
            ++ "\x27 stroke=\x27#f97316\x27 stroke-width=\x274\x27 stroke-linecap=\x27round\x27/>"
        else "")) ""
    let windowLayers := room.windows.foldl (fun acc window =>
      let windowWidthPx : ℚ := window.width * pxPerMeter
      acc ++
        (if window.side = "norte" then
          "<rect x=\x27" ++ fmt1 (x + max (window.offset * pxPerMeter - windowWidthPx / 2) 12)
            ++ "\x27 y=\x27" ++ fmt1 (y - 6) ++ "\x27 width=\x27" ++ fmt1 windowWidthPx
            ++ "\x27 height=\x276\x27 fill=\x27rgba(59,130,246,0.35)\x27 stroke=\x27#3b82f6\x27 stroke-dasharray=\x278 6\x27 />"
        else if window.side = "este" then
          "<rect x=\x27" ++ fmt1 (x + width - 6) ++ "\x27 y=\x27"
            ++ fmt1 (y + max (window.offset * pxPerMeter - windowWidthPx / 2) 12)
            ++ "\x27 width=\x276\x27 height=\x27" ++ fmt1 windowWidthPx
            ++ "\x27 fill=\x27rgba(59,130,246,0.35)\x27 stroke=\x27#3b82f6\x27 stroke-dasharray=\x278 6\x27 />"
        else "")) ""
    let maxChars : ℤ := max 10 (min 18 ⌊min room.width room.length * (3.4 : ℚ)⌋)
    let labelLines := wrapLabel room.name maxChars
    let fit := shrinkFit y rLength labelLines.length room.fontSize.toNat
      room.fontSize (max ((room.fontSize : ℚ) + 2) 14)
    let fontSize : ℤ := fit.1
    let lineHeight : ℚ := fit.2.1
    let labelStartY : ℚ := fit.2.2.1
    let dimsFont : ℤ := max (fontSize - 2) 11
    let dimsY : ℚ := min fit.2.2.2 (y + rLength - 10)
    let centerX : ℚ := x + width / 2
    let nameMarkup :=
      "<text x=\x27" ++ fmt1 centerX ++ "\x27 y=\x27" ++ fmt1 labelStartY
        ++ "\x27 fill=\x27" ++ room.textColor ++ "\x27 font-size=\x27"
        ++ toString fontSize
        ++ "\x27 font-family=\x27Inter, sans-serif\x27 font-weight=\x27600\x27 text-anchor=\x27middle\x27>"
        ++ String.join (labelLines.enum.map (fun il =>
            "<tspan x=\x27" ++ fmt1 centerX ++ "\x27 dy=\x27"
              ++ (if il.1 = 0 then fmt1 0 else fmt1 lineHeight) ++ "\x27>"
              ++ il.2 ++ "</tspan>"))
        ++ "</text>"
    let dimsMarkup :=
      "<text x=\x27" ++ fmt1 centerX ++ "\x27 y=\x27" ++ fmt1 dimsY
        ++ "\x27 fill=\x27#475569\x27 font-size=\x27" ++ toString dimsFont
        ++ "\x27 font-family=\x27Inter, sans-serif\x27 text-anchor=\x27middle\x27>"
        ++ fmt1 room.area ++ " m² · " ++ room.dimsLabel ++ "</text>"
    let hatchOverlay :=
      match hatchId with
      | some h =>
        "<rect x=\x27" ++ fmt1 x ++ "\x27 y=\x27" ++ fmt1 y ++ "\x27 width=\x27"
          ++ fmt1 width ++ "\x27 height=\x27" ++ fmt1 rLength
          ++ "\x27 rx=\x2718\x27 ry=\x2718\x27 fill=\x27url(#" ++ h
          ++ ")\x27 fill-opacity=\x270.55\x27 />"
      | none => ""
    "<g class=\x27room\x27 data-room=\x27" ++ room.name ++ "\x27>"
      ++ "<rect x=\x27" ++ fmt1 x ++ "\x27 y=\x27" ++ fmt1 y ++ "\x27 width=\x27"
      ++ fmt1 width ++ "\x27 height=\x27" ++ fmt1 rLength
      ++ "\x27 rx=\x2718\x27 ry=\x2718\x27 fill=\x27" ++ room.fill
      ++ "\x27 fill-opacity=\x27" ++ fillOpacity ++ "\x27 stroke=\x27" ++ room.stroke
      ++ "\x27 stroke-width=\x27" ++ strokeWidth ++ "\x27 />"
      ++ hatchOverlay ++ doorLayers ++ windowLayers ++ nameMarkup ++ dimsMarkup
      ++ "</g>")
  let dimensionLines :=
    "<line x1=\x27" ++ fmt1 marginX ++ "\x27 y1=\x27" ++ fmt1 (marginY + lengthPx + 36)
      ++ "\x27 x2=\x27" ++ fmt1 (marginX + widthPx) ++ "\x27 y2=\x27"
      ++ fmt1 (marginY + lengthPx + 36)
      ++ "\x27 stroke=\x27#94a3b8\x27 stroke-width=\x271.6\x27 marker-start=\x27url(#arrow)\x27 marker-end=\x27url(#arrow)\x27 />"
      ++ "<text x=\x27" ++ fmt1 (marginX + widthPx / 2) ++ "\x27 y=\x27"
      ++ fmt1 (marginY + lengthPx + 58)
      ++ "\x27 fill=\x27#475569\x27 font-size=\x2713\x27 font-family=\x27Inter, sans-serif\x27 text-anchor=\x27middle\x27>"
      ++ fmt1 widthM ++ " m</text>"
      ++ "<line x1=\x27" ++ fmt1 (marginX - 36) ++ "\x27 y1=\x27" ++ fmt1 marginY
      ++ "\x27 x2=\x27" ++ fmt1 (marginX - 36) ++ "\x27 y2=\x27" ++ fmt1 (marginY + lengthPx)
      ++ "\x27 stroke=\x27#94a3b8\x27 stroke-width=\x271.6\x27 marker-start=\x27url(#arrow)\x27 marker-end=\x27url(#arrow)\x27 />"
      ++ "<text x=\x27" ++ fmt1 (marginX - 58) ++ "\x27 y=\x27"
      ++ fmt1 (marginY + lengthPx / 2)
      ++ "\x27 fill=\x27#475569\x27 font-size=\x2713\x27 font-family=\x27Inter, sans-serif\x27 text-anchor=\x27middle\x27 transform=\x27rotate(-90 "
      ++ fmt1 (marginX - 58) ++ " " ++ fmt1 (marginY + lengthPx / 2) ++ ")\x27>"
      ++ fmt1 lengthM ++ " m</text>"
  let scaleLabel := buildScaleLabel widthM lengthM
  let segment : ℤ := if 12 ≤ widthM then 5 else if 9 ≤ widthM then 3 else 2
  let scaleBar :=
    "<g transform=\x27translate(" ++ fmt1 marginX ++ ","
      ++ fmt1 (marginY + lengthPx + 100)
      ++ ")\x27 fill=\x27none\x27 stroke=\x27#0f172a\x27 stroke-width=\x272.4\x27>"
      ++ "<rect width=\x27" ++ fmt1 ((segment : ℚ) * pxPerMeter)
      ++ "\x27 height=\x2712\x27 fill=\x27#0f172a\x27 rx=\x273\x27 />"
      ++ "<rect x=\x27" ++ fmt1 ((segment : ℚ) * pxPerMeter) ++ "\x27 width=\x27"
      ++ fmt1 ((segment : ℚ) * pxPerMeter)
      ++ "\x27 height=\x2712\x27 fill=\x27#38bdf8\x27 rx=\x273\x27 />"
      ++ "<rect x=\x27" ++ fmt1 ((segment : ℚ) * 2 * pxPerMeter) ++ "\x27 width=\x27"
      ++ fmt1 ((segment : ℚ) * pxPerMeter)
      ++ "\x27 height=\x2712\x27 fill=\x27#0f172a\x27 opacity=\x270.8\x27 rx=\x273\x27 />"
      ++ "<text x=\x270\x27 y=\x2732\x27 fill=\x27#334155\x27 font-size=\x2712\x27 font-family=\x27Inter, sans-serif\x27>0 m</text>"
      ++ "<text x=\x27" ++ fmt1 ((segment : ℚ) * pxPerMeter)
      ++ "\x27 y=\x2732\x27 fill=\x27#334155\x27 font-size=\x2712\x27 font-family=\x27Inter, sans-serif\x27 text-anchor=\x27middle\x27>"
      ++ toString segment ++ " m</text>"
      ++ "<text x=\x27" ++ fmt1 ((segment : ℚ) * 2 * pxPerMeter)
      ++ "\x27 y=\x2732\x27 fill=\x27#334155\x27 font-size=\x2712\x27 font-family=\x27Inter, sans-serif\x27 text-anchor=\x27middle\x27>"
      ++ toString (segment * 2) ++ " m</text>"
      ++ "<text x=\x27" ++ fmt1 ((segment : ℚ) * 3 * pxPerMeter)
      ++ "\x27 y=\x2732\x27 fill=\x27#334155\x27 font-size=\x2712\x27 font-family=\x27Inter, sans-serif\x27 text-anchor=\x27end\x27>"
      ++ toString (segment * 3) ++ " m</text>"
      ++ "<text x=\x270\x27 y=\x2752\x27 fill=\x27#0f172a\x27 font-weight=\x27600\x27 font-size=\x2713\x27 font-family=\x27Inter, sans-serif\x27>"
      ++ scaleLabel ++ "</text>"
      ++ "</g>"
  let northArrow :=
    "<g transform=\x27translate(" ++ fmt1 (marginX + widthPx + 120) ++ ","
      ++ fmt1 (marginY + 40) ++ ") rotate(" ++ toString northRotation
      ++ ")\x27 stroke=\x27#0f172a\x27 fill=\x27none\x27>"
      ++ "<circle cx=\x270\x27 cy=\x270\x27 r=\x2736\x27 stroke-width=\x272.4\x27 fill=\x27rgba(14,116,144,0.08)\x27 />"
      ++ "<polygon points=\x270,-26 11,10 -11,10\x27 fill=\x27#0f172a\x27 />"
      ++ "<line x1=\x270\x27 y1=\x2710\x27 x2=\x270\x27 y2=\x2728\x27 stroke-width=\x273.4\x27 />"
      ++ "<text x=\x270\x27 y=\x2748\x27 font-size=\x2714\x27 font-family=\x27Inter, sans-serif\x27 font-weight=\x27600\x27 text-anchor=\x27middle\x27 fill=\x27#0f172a\x27>N</text>"
      ++ "</g>"
  let svg :=
    "<svg viewBox=\x270 0 " ++ fmt1 viewWidth ++ " " ++ fmt1 viewHeight
      ++ "\x27 xmlns=\x27http://www.w3.org/2000/svg\x27 style=\x27background:#f8fafc;border-radius:22px;box-shadow:0 30px 70px rgba(15,23,42,0.16)\x27>"
      ++ "<defs>"
      ++ "<marker id=\x27arrow\x27 markerWidth=\x278\x27 markerHeight=\x278\x27 refX=\x274\x27 refY=\x274\x27 orient=\x27auto-start-reverse\x27>"
      ++ "<path d=\x27M0,0 L8,4 L0,8 z\x27 fill=\x27#94a3b8\x27/></marker>"
      ++ "<style>.room:hover\x7bcursor:pointer;opacity:0.96;\x7d text\x7bpaint-order:stroke;stroke-width:0.2;stroke:#f8fafc;\x7d</style>"
      ++ patternDefs
      ++ "</defs>"
      ++ "<rect x=\x27" ++ fmt1 (marginX - 32) ++ "\x27 y=\x27" ++ fmt1 (marginY - 32)
      ++ "\x27 width=\x27" ++ fmt1 (widthPx + 64) ++ "\x27 height=\x27"
      ++ fmt1 (lengthPx + 64)
      ++ "\x27 fill=\x27rgba(15,23,42,0.05)\x27 stroke=\x27#0f172a\x27 stroke-width=\x271.6\x27 stroke-dasharray=\x2716 14\x27 />"
      ++ String.join gridCols ++ String.join gridRows
      ++ "<path d=\x27" ++ path
      ++ "\x27 fill=\x27rgba(148,163,184,0.12)\x27 stroke=\x27#0f172a\x27 stroke-width=\x273\x27 transform=\x27translate("
      ++ fmt1 marginX ++ "," ++ fmt1 marginY ++ ")\x27 />"
      ++ String.join roomLayers
      ++ dimensionLines ++ scaleBar ++ northArrow
      ++ "</svg>"
  (svg, scaleLabel, pyUpper orientation)

/-- One ranked plan option (`_generate_blueprints` option dict, flattened:
`blueprint_2d` fields and `blueprint_3d.volumes` inlined). -/
structure PlanOption where
  name : String
  description : String
  compatibility : ℚ
  svg : String
  rooms : List LayoutRoom
  legend : List LegendEntry
  scaleLabel : String
  orientationLabel : String
  volumes : List Volume
  solar : String
deriving DecidableEq, Inhabited

/-- The blueprints block: options (sorted) and the selected option. -/
structure Blueprints where
  options : List PlanOption
  selected : PlanOption
deriving DecidableEq, Inhabited

/-- The option list of `_generate_blueprints` before sorting, one option per
catalog template, in catalog order. -/
def planOptionsRaw (videoOf : String → Option String) (b : Brief)
    (rooms : List Room) (totalArea : ℚ) (solar : String) : List PlanOption :=
  planTemplates.map (fun t =>
    let compatibility := pyRound 2 (scoreTemplate t b totalArea)
    let lm := layoutRooms videoOf rooms b.anchoTerreno b.largoTerreno b.orientacion
    let sv := createSvg t.svgTemplate lm.1 lm.2 b
    { name := t.name
      description := t.description
      compatibility := compatibility
      svg := sv.1
      rooms := lm.1
      legend := buildRoomLegend lm.1
      scaleLabel := sv.2.1
      orientationLabel := sv.2.2
      volumes := generateVolumes lm.1 b.plantas
      solar := solar })

/-- `_generate_blueprints`: score and lay out every template, sort the
options by compatibility descending (stable), select the first. -/
def generateBlueprints (videoOf : String → Option String) (b : Brief)
    (rooms : List Room) (totalArea : ℚ) (solar : String) : Blueprints :=
  let sorted := sortDescBy PlanOption.compatibility
    (planOptionsRaw videoOf b rooms totalArea solar)
  { options := sorted, selected := sorted.headI }

/-- Two placed rooms overlap when the interiors of their recorded rectangles
(position, dimensions) intersect. -/
def overlaps (a b : LayoutRoom) : Prop :=
  a.posX < b.posX + b.width ∧ b.posX < a.posX + a.width ∧
  a.posY < b.posY + b.length ∧ b.posY < a.posY + a.length

/-- Loop invariant of the placement loop: the rooms placed so far are
pairwise non-overlapping, every placed room ends above the frontier of the
current row, and every placed room either ends (one corridor) left of the
x-cursor or (one corridor) above the current row.  The `1/100` slack absorbs
the error of recording positions and dimensions rounded to two decimals. -/
def PlacementInv (corridor : ℚ) (st : LayoutState) : Prop :=
  st.layout.Pairwise (fun a b => ¬ overlaps a b) ∧
  ∀ r ∈ st.layout,
    r.posY + r.length ≤ corridor / 2 + st.yCursor + st.rowHeight + 1 / 100 ∧
    (r.posX + r.width ≤ corridor / 2 + st.xCursor - corridor + 1 / 100 ∨
     r.posY + r.length ≤ corridor / 2 + st.yCursor - corridor + 1 / 100)

/-- The worked scenario brief of the specification: terrain 10×15 m, budget
350000, climate templado, material block, family of 4, 1 level, rooms
cocina/baño/recámara/sala, no preferences. -/
def scenarioBrief : Brief :=
  { anchoTerreno := 10, largoTerreno := 15, presupuesto := 350000,
    clima := "templado", material := "block", personas := 4, plantas := 1,
    espacios := ["cocina", "baño", "recámara", "sala"], preferencias := [] }

/-- A brief with a large family, a small budget and a single requested room
(used to test monotonicity of the viability score in the room count). -/
def growthBrief1 : Brief :=
  { anchoTerreno := 10, largoTerreno := 15, presupuesto := 50000,
    clima := "templado", material := "block", personas := 100, plantas := 1,
    espacios := ["sala"], preferencias := [] }

/-- `growthBrief1` with one more requested room, all other inputs fixed. -/
def growthBrief2 : Brief := { growthBrief1 with espacios := ["sala", "cocina"] }

theorem floor_le_bankers (x : ℚ) : ⌊x⌋ ≤ bankers x := by
  simp only [bankers]
  split_ifs <;> omega

theorem bankers_le_floor_add_one (x : ℚ) : bankers x ≤ ⌊x⌋ + 1 := by
  simp only [bankers]
  split_ifs <;> omega

theorem bankers_le (x : ℚ) : (bankers x : ℚ) ≤ x + 1 / 2 := by
  have h1 : ((⌊x⌋ : ℤ) : ℚ) ≤ x := Int.floor_le x
  have h2 : x < (⌊x⌋ : ℚ) + 1 := Int.lt_floor_add_one x
  simp only [bankers]
  split_ifs <;> push_cast <;> linarith

theorem le_bankers (x : ℚ) : x - 1 / 2 ≤ (bankers x : ℚ) := by
  have h1 : ((⌊x⌋ : ℤ) : ℚ) ≤ x := Int.floor_le x
  have h2 : x < (⌊x⌋ : ℚ) + 1 := Int.lt_floor_add_one x
  simp only [bankers]
  split_ifs <;> push_cast <;> linarith

theorem bankers_mono {x y : ℚ} (h : x ≤ y) : bankers x ≤ bankers y := by
  rcases lt_or_le ⌊x⌋ ⌊y⌋ with hl | hge
  · have hx := bankers_le_floor_add_one x
    have hy := floor_le_bankers y
    omega
  · have heq : ⌊x⌋ = ⌊y⌋ := le_antisymm (Int.floor_le_floor h) hge
    have h1 : ((⌊y⌋ : ℤ) : ℚ) ≤ y := Int.floor_le y
    simp only [bankers, heq]
    split_ifs <;> first | omega | (exfalso; first | omega | linarith)

theorem bankers_intCast (n : ℤ) : bankers (n : ℚ) = n := by
  simp only [bankers, Int.floor_intCast, sub_self]
  norm_num

theorem pyRound2_le (x : ℚ) : pyRound 2 x ≤ x + 1 / 200 := by
  have h := bankers_le (x * 10 ^ 2)
  simp only [pyRound]
  norm_num at h ⊢
  linarith

theorem le_pyRound2 (x : ℚ) : x - 1 / 200 ≤ pyRound 2 x := by
  have h := le_bankers (x * 10 ^ 2)
  simp only [pyRound]
  norm_num at h ⊢
  linarith

theorem pyRound_mono (p : ℕ) {x y : ℚ} (h : x ≤ y) :
    pyRound p x ≤ pyRound p y := by
  have hp : (0 : ℚ) < 10 ^ p := by positivity
  have hb : (bankers (x * 10 ^ p) : ℚ) ≤ (bankers (y * 10 ^ p) : ℚ) := by
    exact_mod_cast bankers_mono (mul_le_mul_of_nonneg_right h hp.le)
  simp only [pyRound]
  exact (div_le_div_iff_of_pos_right hp).2 hb

theorem insertAscBy_perm {α β : Type} [LinearOrder β] (key : α → β) (a : α)
    (l : List α) : List.Perm (insertAscBy key a l) (a :: l) := by
  induction l with
  | nil => exact List.Perm.refl _
  | cons b l ih =>
    simp only [insertAscBy]
    split_ifs with hb
    · exact List.Perm.refl _
    · exact (ih.cons b).trans (List.Perm.swap a b l)

theorem sortAscBy_perm {α β : Type} [LinearOrder β] (key : α → β)
    (l : List α) : List.Perm (sortAscBy key l) l := by
  induction l with
  | nil => exact List.Perm.refl _
  | cons a l ih =>
    exact (insertAscBy_perm key a (sortAscBy key l)).trans (ih.cons a)

theorem insertDescBy_perm {α β : Type} [LinearOrder β] (key : α → β) (a : α)
    (l : List α) : List.Perm (insertDescBy key a l) (a :: l) := by
  induction l with
  | nil => exact List.Perm.refl _
  | cons b l ih =>
    simp only [insertDescBy]
    split_ifs with hb
    · exact List.Perm.refl _
    · exact (ih.cons b).trans (List.Perm.swap a b l)

theorem sortDescBy_perm {α β : Type} [LinearOrder β] (key : α → β)
    (l : List α) : List.Perm (sortDescBy key l) l := by
  induction l with
  | nil => exact List.Perm.refl _
  | cons a l ih =>
    exact (insertDescBy_perm key a (sortDescBy key l)).trans (ih.cons a)

theorem insertDescBy_sorted {α β : Type} [LinearOrder β] (key : α → β) (a : α)
    {l : List α} (h : l.Pairwise (fun u v => key v ≤ key u)) :
    (insertDescBy key a l).Pairwise (fun u v => key v ≤ key u) := by
  induction l with
  | nil => simp [insertDescBy]
  | cons b l ih =>
    rw [List.pairwise_cons] at h
    obtain ⟨hb, hl⟩ := h
    simp only [insertDescBy]
    split_ifs with hba
    · refine List.pairwise_cons.2 ⟨?_, List.pairwise_cons.2 ⟨hb, hl⟩⟩
      intro x hx
      rcases List.mem_cons.1 hx with rfl | hx
      · exact hba
      · exact le_trans (hb x hx) hba
    · refine List.pairwise_cons.2 ⟨?_, ih hl⟩
      intro x hx
      rcases List.mem_cons.1 ((insertDescBy_perm key a l).mem_iff.1 hx) with rfl | hx
      · exact le_of_lt (not_le.1 hba)
      · exact hb x hx

theorem sortDescBy_sorted {α β : Type} [LinearOrder β] (key : α → β)
    (l : List α) : (sortDescBy key l).Pairwise (fun u v => key v ≤ key u) := by
  induction l with
  | nil => simp [sortDescBy]
  | cons a l ih => exact insertDescBy_sorted key a ih

theorem insertDescBy_filter_pos {α β : Type} [LinearOrder β] [DecidableEq β]
    (key : α → β) (a : α) (l : List α) (c : β) (ha : key a = c) :
    (insertDescBy key a l).filter (fun x => decide (key x = c)) =
      a :: l.filter (fun x => decide (key x = c)) := by
  induction l with
  | nil => simp [insertDescBy, List.filter, ha]
  | cons b l ih =>
    simp only [insertDescBy]
    split_ifs with hba
    · simp [List.filter_cons, ha]
    · have hbc : ¬ (key b = c) := by
        rw [← ha]
        intro e
        exact hba (le_of_eq e)
      simp [List.filter_cons, hbc, ih]

theorem insertDescBy_filter_neg {α β : Type} [LinearOrder β] [DecidableEq β]
    (key : α → β) (a : α) (l : List α) (c : β) (ha : ¬ key a = c) :
    (insertDescBy key a l).filter (fun x => decide (key x = c)) =
      l.filter (fun x => decide (key x = c)) := by
  induction l with
  | nil => simp [insertDescBy, List.filter, ha]
  | cons b l ih =>
    simp only [insertDescBy]
    split_ifs with hba
    · simp [List.filter_cons, ha]
    · simp [List.filter_cons, ih]

theorem sortDescBy_filter {α β : Type} [LinearOrder β] [DecidableEq β]
    (key : α → β) (l : List α) (c : β) :
    (sortDescBy key l).filter (fun x => decide (key x = c)) =
      l.filter (fun x => decide (key x = c)) := by
  induction l with
  | nil => rfl
  | cons a l ih =>
    simp only [sortDescBy]
    by_cases ha : key a = c
    · rw [insertDescBy_filter_pos key a _ c ha, ih, List.filter_cons]
      simp [ha]
    · rw [insertDescBy_filter_neg key a _ c ha, ih, List.filter_cons]
      simp [ha]

theorem buildRoomProgram_ne_nil (spaces : List String) :
    buildRoomProgram spaces ≠ [] := by
  cases spaces with
  | nil => simp [buildRoomProgram]
  | cons s rest => simp [buildRoomProgram]

unseal Rat.add Rat.mul Rat.inv Rat.sub Rat.ofScientific in
theorem roomPresets_area_ok :
    ∀ q ∈ roomPresets, pyRound 1 (max q.2.1 6) = q.2.1 ∧ 6 ≤ q.2.1 := by
  decide

unseal Rat.add Rat.mul Rat.inv Rat.sub Rat.ofScientific in
theorem buildRoomProgram_area {spaces : List String} {r : Room}
    (hr : r ∈ buildRoomProgram spaces) :
    pyRound 1 (max r.area 6) = r.area ∧ 6 ≤ r.area := by
  simp only [buildRoomProgram] at hr
  split at hr
  · rw [List.mem_singleton] at hr
    subst hr
    decide
  · obtain ⟨s, hs, rfl⟩ := List.mem_map.1 hr
    rcases hd : dictGet roomPresets (pyLower s) with _ | p
    · simp only [hd]
      decide
    · simp only [hd]
      obtain ⟨q, hq, hqp⟩ := Option.map_eq_some'.1 hd
      have hmem := List.mem_of_find?_eq_some hq
      have := roomPresets_area_ok q hmem
      rw [hqp] at this
      exact this

theorem buildRoomProgram_total_area (spaces : List String) :
    6 ≤ ((buildRoomProgram spaces).map Room.area).sum := by
  rcases hb : buildRoomProgram spaces with _ | ⟨r, rest⟩
  · exact absurd hb (buildRoomProgram_ne_nil spaces)
  · have hr : r ∈ buildRoomProgram spaces := by
      rw [hb]; exact List.mem_cons_self _ _
    have h6 := (buildRoomProgram_area hr).2
    have hrest : 0 ≤ (rest.map Room.area).sum := by
      apply List.sum_nonneg
      intro x hx
      obtain ⟨q, hq, rfl⟩ := List.mem_map.1 hx
      have hqm : q ∈ buildRoomProgram spaces := by
        rw [hb]; exact List.mem_cons_of_mem _ hq
      linarith [(buildRoomProgram_area hqm).2]
    simp only [List.map_cons, List.sum_cons]
    linarith

theorem placeStep_layout_areas (videoOf : String → Option String)
    (orientation : String) (maxWidth c : ℚ) (st : LayoutState) (room : Room) :
    (placeStep videoOf orientation maxWidth c st room).layout.map LayoutRoom.area
      = st.layout.map LayoutRoom.area ++ [pyRound 1 (roomTargetArea room)] := by
  simp [placeStep]

theorem foldl_placeStep_areas (videoOf : String → Option String)
    (orientation : String) (maxWidth c : ℚ) (rooms : List Room)
    (st : LayoutState) :
    ((rooms.foldl (placeStep videoOf orientation maxWidth c) st).layout).map
        LayoutRoom.area
      = st.layout.map LayoutRoom.area
        ++ rooms.map (fun r => pyRound 1 (roomTargetArea r)) := by
  induction rooms generalizing st with
  | nil => simp
  | cons r rooms ih =>
    rw [List.foldl_cons, ih, placeStep_layout_areas]
    simp

theorem layoutRooms_area_sum (videoOf : String → Option String)
    (rooms : List Room) (width length : ℚ) (orientation : Option String)
    (h : ∀ r ∈ rooms, pyRound 1 (max r.area 6) = r.area) :
    (((layoutRooms videoOf rooms width length orientation).1).map
        LayoutRoom.area).sum
      = (rooms.map Room.area).sum := by
  simp only [layoutRooms]
  rw [foldl_placeStep_areas]
  simp only [List.map_nil, List.nil_append]
  have hperm : List.Perm (sortAscBy roomOrderKey rooms) rooms :=
    sortAscBy_perm _ _
  rw [(hperm.map (fun r => pyRound 1 (roomTargetArea r))).sum_eq]
  congr 1
  apply List.map_congr_left
  intro r hrm
  exact h r hrm

theorem roomWidthGuess_ge (room : Room) : (2.6 : ℚ) ≤ roomWidthGuess room := by
  unfold roomWidthGuess
  exact le_max_right _ _

theorem place_core
    (c xc yc rh W L : ℚ) (prev : List LayoutRoom) (n : LayoutRoom)
    (hc : 3 / 200 ≤ c) (hW : 0 ≤ W)
    (hnx1 : c / 2 + xc - 1 / 200 ≤ n.posX) (hnx2 : n.posX ≤ c / 2 + xc + 1 / 200)
    (hnw : n.width ≤ W + 1 / 200)
    (hny1 : c / 2 + yc - 1 / 200 ≤ n.posY) (hny2 : n.posY ≤ c / 2 + yc + 1 / 200)
    (hnl : n.length ≤ L + 1 / 200)
    (hpair : prev.Pairwise (fun a b => ¬ overlaps a b))
    (hprev : ∀ r ∈ prev,
      r.posY + r.length ≤ c / 2 + yc + rh + 1 / 100 ∧
      (r.posX + r.width ≤ c / 2 + xc - c + 1 / 100 ∨
       r.posY + r.length ≤ c / 2 + yc - c + 1 / 100)) :
    (prev ++ [n]).Pairwise (fun a b => ¬ overlaps a b) ∧
    ∀ r ∈ prev ++ [n],
      r.posY + r.length ≤ c / 2 + yc + max rh L + 1 / 100 ∧
      (r.posX + r.width ≤ c / 2 + (xc + W + c) - c + 1 / 100 ∨
       r.posY + r.length ≤ c / 2 + yc - c + 1 / 100) := by
  constructor
  · rw [List.pairwise_append]
    refine ⟨hpair, List.pairwise_singleton _ _, ?_⟩
    intro a ha b hb
    rw [List.mem_singleton] at hb
    subst hb
    rcases (hprev a ha).2 with hx | hy
    · intro hov
      exact absurd hov.2.1 (not_lt.2 (by linarith))
    · intro hov
      exact absurd hov.2.2.2 (not_lt.2 (by linarith))
  · intro r hr
    rcases List.mem_append.1 hr with hr | hr
    · obtain ⟨hA, hB⟩ := hprev r hr
      constructor
      · have := le_max_left rh L
        linarith
      · rcases hB with hB | hB
        · left; linarith
        · right; exact hB
    · rw [List.mem_singleton] at hr
      subst hr
      constructor
      · have := le_max_right rh L
        linarith
      · left; linarith

theorem placeStep_inv (videoOf : String → Option String) (orientation : String)
    (maxWidth c : ℚ) (st : LayoutState) (room : Room)
    (hc : 3 / 200 ≤ c) (h : PlacementInv c st) :
    PlacementInv c (placeStep videoOf orientation maxWidth c st room) := by
  obtain ⟨hpair, hmem⟩ := h
  have hwg := roomWidthGuess_ge room
  by_cases hw : maxWidth < st.xCursor + roomWidthGuess room ∧ 0 < st.xCursor
  · simp only [placeStep, if_pos hw]
    unfold PlacementInv at *
    refine place_core c 0 (st.yCursor + st.rowHeight + c) 0 _ _ _ _ hc ?_
      (le_pyRound2 _) (pyRound2_le _) (pyRound2_le _)
      (le_pyRound2 _) (pyRound2_le _) (pyRound2_le _) hpair ?_
    · split_ifs with hclip
      · exact le_min (by linarith) (by linarith)
      · linarith
    · intro r hr
      obtain ⟨hA, _⟩ := hmem r hr
      constructor
      · linarith
      · right; linarith
  · simp only [placeStep, if_neg hw]
    unfold PlacementInv at *
    refine place_core c st.xCursor st.yCursor st.rowHeight _ _ _ _ hc ?_
      (le_pyRound2 _) (pyRound2_le _) (pyRound2_le _)
      (le_pyRound2 _) (pyRound2_le _) (pyRound2_le _) hpair ?_
    · split_ifs with hclip
      · exact le_min (by linarith) (by linarith)
      · linarith
    · exact hmem

theorem foldl_placeStep_inv (videoOf : String → Option String)
    (orientation : String) (maxWidth c : ℚ) (hc : 3 / 200 ≤ c)
    (rooms : List Room) (st : LayoutState) (h : PlacementInv c st) :
    PlacementInv c (rooms.foldl (placeStep videoOf orientation maxWidth c) st) := by
  induction rooms generalizing st with
  | nil => exact h
  | cons r rooms ih => exact ih _ (placeStep_inv _ _ _ _ _ _ hc h)

theorem layoutRooms_pairwise_disjoint (videoOf : String → Option String)
    (rooms : List Room) (width length : ℚ) (orientation : Option String) :
    ((layoutRooms videoOf rooms width length orientation).1).Pairwise
      (fun a b => ¬ overlaps a b) := by
  simp only [layoutRooms]
  have h0 : PlacementInv 0.8
      { xCursor := 0, yCursor := 0, rowHeight := 0, totalWidth := 0,
        totalLength := 0, layout := ([] : List LayoutRoom) } := by
    constructor
    · exact List.Pairwise.nil
    · intro r hr
      exact absurd hr (List.not_mem_nil r)
  exact (foldl_placeStep_inv videoOf _ _ 0.8 (by norm_num) _ _ h0).1

/-- C1: for every room list produced by the room program builder and every
terrain width/length and orientation, no two of the placed room rectangles
(position, dimensions) returned by the layout engine overlap. -/
theorem claim_c1_no_overlap (videoOf : String → Option String)
    (spaces : List String) (width length : ℚ) (orientation : Option String) :
    ((layoutRooms videoOf (buildRoomProgram spaces) width length
        orientation).1).Pairwise (fun a b => ¬ overlaps a b) :=
  layoutRooms_pairwise_disjoint videoOf _ width length orientation

/-- C2: for every room list produced by the room program builder and every
terrain width/length, the sum of the areas of the placed rooms returned by
the layout engine equals the sum of the source room areas (here even
exactly, hence within any rounding tolerance). -/
theorem claim_c2_area_sum (videoOf : String → Option String)
    (spaces : List String) (width length : ℚ) (orientation : Option String) :
    (((layoutRooms videoOf (buildRoomProgram spaces) width length
        orientation).1).map LayoutRoom.area).sum
      = ((buildRoomProgram spaces).map Room.area).sum := by
  apply layoutRooms_area_sum
  intro r hr
  exact (buildRoomProgram_area hr).1

/-- C3: for every catalog template and every brief with positive total
programmed area, the compatibility score equals the formula of the
specification (clamped to [0,1]), and in particular always lies in [0,1]. -/
theorem claim_c3_score_formula (t : PlanTemplate) (_ht : t ∈ planTemplates)
    (b : Brief) (totalArea : ℚ) (_hA : 0 < totalArea) :
    scoreTemplate t b totalArea = scoreTemplateSpec t b totalArea ∧
    0 ≤ scoreTemplate t b totalArea ∧ scoreTemplate t b totalArea ≤ 1 := by
  refine ⟨?_, le_max_left _ _, ?_⟩
  · simp only [scoreTemplate, scoreTemplateSpec]
    have h12 : min (1.2 : ℚ) 1 = 1 := by norm_num [min_def]
    rw [min_assoc, h12]
  · exact max_le (by norm_num) (min_le_right _ 1)

/-- Witness for C3 at the first catalog template and the worked scenario. -/
theorem claim_c3_witness :
    planTemplates.headI ∈ planTemplates ∧ (0 : ℚ) < 48 ∧
    scoreTemplate planTemplates.headI scenarioBrief 48 =
      scoreTemplateSpec planTemplates.headI scenarioBrief 48 :=
  ⟨by decide, by norm_num,
    (claim_c3_score_formula planTemplates.headI (by decide) scenarioBrief 48
      (by norm_num)).1⟩

/-- C4: the returned plan options are sorted by compatibility descending,
equal scores keep the catalog order of the template list (stable sort:
per-score filters agree with the unsorted catalog-order option list), and
the selected option is the first element of the sorted list. -/
theorem claim_c4_sorted_stable_selected (videoOf : String → Option String)
    (b : Brief) (rooms : List Room) (totalArea : ℚ) (solar : String) :
    ((generateBlueprints videoOf b rooms totalArea solar).options).Pairwise
      (fun x y => y.compatibility ≤ x.compatibility) ∧
    (∀ cval : ℚ,
      ((generateBlueprints videoOf b rooms totalArea solar).options).filter
          (fun o => decide (o.compatibility = cval))
        = (planOptionsRaw videoOf b rooms totalArea solar).filter
            (fun o => decide (o.compatibility = cval))) ∧
    (generateBlueprints videoOf b rooms totalArea solar).selected
      = ((generateBlueprints videoOf b rooms totalArea solar).options).headI := by
  refine ⟨?_, ?_, rfl⟩
  · simp only [generateBlueprints]
    exact sortDescBy_sorted _ _
  · intro cval
    simp only [generateBlueprints]
    exact sortDescBy_filter _ _ _

set_option maxRecDepth 8000 in
unseal Rat.add Rat.mul Rat.inv Rat.sub Rat.ofScientific in
/-- C5 counterexample: with family size 100, budget 50000, climate templado
and material block, growing the room program from [sala] to [sala, cocina]
stays far below the family-size cap, yet the viability score drops from
0.55 to 0.41 because the recomputed materials estimate grows faster than the
space factor: the claimed monotonicity in room count fails on the code. -/
theorem claim_c5_counterexample :
    (pipelineRooms growthBrief1).length < (pipelineRooms growthBrief2).length ∧
    ((pipelineRooms growthBrief2).length : ℚ)
        / ((growthBrief2.personas : ℚ) + 1) ≤ 1.2 ∧
    (pipelineViability growthBrief2).score
      < (pipelineViability growthBrief1).score := by
  decide

/-- C5 amended: the viability score is non-decreasing in the budget (other
brief inputs fixed, materials recomputed), and non-decreasing in the room
count below the family-size cap when the materials estimate is held fixed
rather than recomputed from the enlarged room program. -/
theorem claim_c5_amended :
    (∀ (b : Brief) (p₁ p₂ : ℚ), p₁ ≤ p₂ →
      (pipelineViability { b with presupuesto := p₁ }).score ≤
        (pipelineViability { b with presupuesto := p₂ }).score) ∧
    (∀ (b : Brief) (rooms₁ rooms₂ : List Room) (mats : MaterialEstimate),
      0 ≤ b.personas →
      rooms₁.length ≤ rooms₂.length →
      ((rooms₂.length : ℚ)) / ((b.personas : ℚ) + 1) ≤ 1.2 →
      (calculateViability b rooms₁ mats).score ≤
        (calculateViability b rooms₂ mats).score) := by
  constructor
  · intro b p₁ p₂ hp
    have hmats : pipelineMaterials { b with presupuesto := p₁ }
        = pipelineMaterials { b with presupuesto := p₂ } := rfl
    have hrooms : pipelineRooms { b with presupuesto := p₁ }
        = pipelineRooms { b with presupuesto := p₂ } := rfl
    simp only [pipelineViability, calculateViability, hmats, hrooms]
    apply pyRound_mono
    apply min_le_min _ (le_refl (1 : ℚ))
    have hD : (0 : ℚ) < max (pipelineMaterials
        { b with presupuesto := p₂ }).estimatedTotal 1 :=
      lt_of_lt_of_le one_pos (le_max_right _ _)
    have hbud : min (p₁ / max (pipelineMaterials
          { b with presupuesto := p₂ }).estimatedTotal 1) 1.2
        ≤ min (p₂ / max (pipelineMaterials
          { b with presupuesto := p₂ }).estimatedTotal 1) 1.2 :=
      min_le_min ((div_le_div_iff_of_pos_right hD).2 hp) (le_refl _)
    linarith
  · intro b rooms₁ rooms₂ mats hpers hlen _hcap
    simp only [calculateViability]
    apply pyRound_mono
    apply min_le_min _ (le_refl (1 : ℚ))
    have hP : (0 : ℚ) < (b.personas : ℚ) + 1 := by
      have h0 : (0 : ℚ) ≤ (b.personas : ℚ) := by exact_mod_cast hpers
      linarith
    have hsp : min ((rooms₁.length : ℚ) / ((b.personas : ℚ) + 1)) 1.2
        ≤ min ((rooms₂.length : ℚ) / ((b.personas : ℚ) + 1)) 1.2 := by
      refine min_le_min ((div_le_div_iff_of_pos_right hP).2 ?_) (le_refl _)
      exact_mod_cast hlen
    linarith

unseal Rat.add Rat.mul Rat.inv Rat.sub Rat.ofScientific in
/-- Witness for C5 amended: budget 50000 → 60000 on the worked scenario, and
one extra room at fixed materials. -/
theorem claim_c5_amended_witness :
    ((50000 : ℚ) ≤ 60000 ∧ 0 ≤ scenarioBrief.personas ∧
      ([(⟨"Sala", 16, "social", none⟩ : Room)]).length ≤
        ([⟨"Sala", 16, "social", none⟩, ⟨"Cocina", 12, "wet", none⟩] :
          List Room).length ∧
      ((([⟨"Sala", 16, "social", none⟩, ⟨"Cocina", 12, "wet", none⟩] :
          List Room).length : ℚ))
          / ((scenarioBrief.personas : ℚ) + 1) ≤ 1.2) ∧
    (pipelineViability { scenarioBrief with presupuesto := 50000 }).score ≤
      (pipelineViability { scenarioBrief with presupuesto := 60000 }).score ∧
    (calculateViability scenarioBrief [⟨"Sala", 16, "social", none⟩]
        (pipelineMaterials scenarioBrief)).score ≤
      (calculateViability scenarioBrief
        [⟨"Sala", 16, "social", none⟩, ⟨"Cocina", 12, "wet", none⟩]
        (pipelineMaterials scenarioBrief)).score := by
  refine ⟨⟨by norm_num, by decide, by decide, by decide⟩, ?_, ?_⟩
  · exact claim_c5_amended.1 scenarioBrief 50000 60000 (by norm_num)
  · exact claim_c5_amended.2 scenarioBrief _ _ _ (by decide) (by decide)
      (by decide)

set_option maxRecDepth 8000 in
unseal Rat.add Rat.mul Rat.inv Rat.sub Rat.ofScientific in
/-- C6: the worked scenario (terrain 10×15, budget 350000, templado, block,
family 4, 1 level, rooms cocina/baño/recámara/sala, no preferences) yields
programmed area 48 m², structural cost 115200, finishes 28800, installations
20736, contingency 8064, total 172800, viability score 1.0 and the
"excellent" status message. -/
theorem claim_c6_scenario :
    pipelineTotalArea scenarioBrief = 48 ∧
    structureCost scenarioBrief 48 = 115200 ∧
    finishesCost scenarioBrief 48 = 28800 ∧
    installationsCost scenarioBrief 48 = 20736 ∧
    contingencyCost scenarioBrief 48 = 8064 ∧
    (pipelineMaterials scenarioBrief).estimatedTotal = 172800 ∧
    (pipelineViability scenarioBrief).score = 1 ∧
    (pipelineViability scenarioBrief).message =
      "Excelente viabilidad, el proyecto puede iniciar de inmediato." := by
  decide

/-- C7 counterexample: on the empty input the synthesized default room is
named "Sala-Comedor", not "Living-Dining" as the claim states. -/
theorem claim_c7_counterexample :
    (buildRoomProgram []).map Room.name = ["Sala-Comedor"] ∧
    ¬ ∃ r ∈ buildRoomProgram [], r.name = "Living-Dining" := by
  decide

/-- C7 amended: if the input room-name list is empty, the builder returns
exactly one synthesized default room named "Sala-Comedor" with area 28 m²
and type social; for every input the returned room list is non-empty. -/
theorem claim_c7_amended :
    buildRoomProgram [] =
      [{ name := "Sala-Comedor", area := 28, type := "social",
         guide := some "levantamiento_muros" }] ∧
    ∀ spaces : List String, buildRoomProgram spaces ≠ [] :=
  ⟨rfl, buildRoomProgram_ne_nil⟩

/-- C8: every division of the core has a denominator bounded below by a
positive constant for conforming briefs: the room program always totals at
least 6 m² of area, so the template-score denominator
`base_cost * total_area` is at least 1 (it never divides by zero); the
viability denominators `personas + 1` and `max(total, 1)` are at least 1. -/
theorem claim_c8_denominators (b : Brief) (hp : 0 ≤ b.personas)
    (t : PlanTemplate) (ht : t ∈ planTemplates) :
    6 ≤ pipelineTotalArea b ∧
    1 ≤ t.baseCost * pipelineTotalArea b ∧
    1 ≤ (b.personas : ℚ) + 1 ∧
    1 ≤ max (pipelineMaterials b).estimatedTotal 1 := by
  have h6 : 6 ≤ pipelineTotalArea b := buildRoomProgram_total_area b.espacios
  refine ⟨h6, ?_, ?_, le_max_right _ _⟩
  · have hall : ∀ u ∈ planTemplates, (6900 : ℚ) ≤ u.baseCost := by decide
    have hbc := hall t ht
    have hmul : (6900 : ℚ) * 6 ≤ t.baseCost * pipelineTotalArea b :=
      mul_le_mul hbc h6 (by norm_num) (by linarith)
    linarith
  · have h0 : (0 : ℚ) ≤ (b.personas : ℚ) := by exact_mod_cast hp
    linarith

/-- Witness for C8 at the worked scenario and the first catalog template. -/
theorem claim_c8_witness :
    0 ≤ scenarioBrief.personas ∧ planTemplates.headI ∈ planTemplates ∧
    1 ≤ planTemplates.headI.baseCost * pipelineTotalArea scenarioBrief := by
  refine ⟨by decide, by decide, ?_⟩
  exact (claim_c8_denominators scenarioBrief (by decide) planTemplates.headI
    (by decide)).2.1

/-- C9: the geometry renderer is a pure function: two runs on equal placed
room lists, envelope metrics and briefs produce byte-identical markup and
identical metadata (no randomness, no wall-clock dependence). -/
theorem claim_c9_renderer_deterministic
    (path₁ path₂ : String) (rooms₁ rooms₂ : List LayoutRoom)
    (m₁ m₂ : LayoutMetrics) (b₁ b₂ : Brief)
    (hpath : path₁ = path₂) (hrooms : rooms₁ = rooms₂) (hm : m₁ = m₂)
    (hb : b₁ = b₂) :
    createSvg path₁ rooms₁ m₁ b₁ = createSvg path₂ rooms₂ m₂ b₂ := by
  subst hpath hrooms hm hb
  rfl

/-- Witness for C9 on a concrete input. -/
theorem claim_c9_witness :
    ("M20 20 H 300 V 200 H 20 Z" : String) = "M20 20 H 300 V 200 H 20 Z" ∧
    createSvg "M20 20 H 300 V 200 H 20 Z" []
        { width := 8, length := 8, corridor := 0.8, envelopeWidth := 8 }
        scenarioBrief
      = createSvg "M20 20 H 300 V 200 H 20 Z" []
          { width := 8, length := 8, corridor := 0.8, envelopeWidth := 8 }
          scenarioBrief :=
  ⟨rfl, claim_c9_renderer_deterministic _ _ _ _ _ _ _ _ rfl rfl rfl rfl⟩

set_option maxHeartbeats 2000000 in
/-- C10: all generated plan options share the same room layout, legend, 3D
volumes, scale label, orientation label and solar text (the layout does not
depend on the template); options differ only in name, description,
compatibility and the rendered markup with the template path skeleton. -/
theorem claim_c10_options_share_layout (videoOf : String → Option String)
    (b : Brief) (rooms : List Room) (totalArea : ℚ) (solar : String) :
    ((generateBlueprints videoOf b rooms totalArea solar).options).map
        (fun o => (o.rooms, o.legend, o.volumes, o.scaleLabel,
          o.orientationLabel, o.solar))
      = List.replicate 3
          ((layoutRooms videoOf rooms b.anchoTerreno b.largoTerreno
              b.orientacion).1,
           buildRoomLegend (layoutRooms videoOf rooms b.anchoTerreno
              b.largoTerreno b.orientacion).1,
           generateVolumes (layoutRooms videoOf rooms b.anchoTerreno
              b.largoTerreno b.orientacion).1 b.plantas,
           "Escala gráfica 1:100 (1 cm = 1 m)",
           pyUpper (pyLower (b.orientacion.getD "norte")),
           solar) := by
  have hraw : (planOptionsRaw videoOf b rooms totalArea solar).map
      (fun o => (o.rooms, o.legend, o.volumes, o.scaleLabel,
        o.orientationLabel, o.solar))
      = List.replicate 3
          ((layoutRooms videoOf rooms b.anchoTerreno b.largoTerreno
              b.orientacion).1,
           buildRoomLegend (layoutRooms videoOf rooms b.anchoTerreno
              b.largoTerreno b.orientacion).1,
           generateVolumes (layoutRooms videoOf rooms b.anchoTerreno
              b.largoTerreno b.orientacion).1 b.plantas,
           "Escala gráfica 1:100 (1 cm = 1 m)",
           pyUpper (pyLower (b.orientacion.getD "norte")),
           solar) := rfl
  have hperm := (sortDescBy_perm PlanOption.compatibility
      (planOptionsRaw videoOf b rooms totalArea solar)).map
    (fun o => (o.rooms, o.legend, o.volumes, o.scaleLabel,
      o.orientationLabel, o.solar))
  rw [hraw] at hperm
  have hlen := hperm.length_eq
  rw [List.length_replicate] at hlen
  refine List.eq_replicate_iff.2 ⟨?_, ?_⟩
  · simpa [generateBlueprints] using hlen
  · intro x hx
    have hx2 := hperm.mem_iff.1 (by simpa [generateBlueprints] using hx)
    exact List.eq_of_mem_replicate hx2
